import Mathlib

/-!
Verification of the cover-enrichment pipeline of `process_csv.py`
(storygraph-rater).

The network is modelled as an oracle: a function from the request URL (for
the HEAD existence check) or from the raw search query text (for the search
endpoint, before URL-encoding — the encoding is injective so this loses
nothing) and the 0-based attempt number to a response.  A response is either
an exception raised anywhere inside the `try` block (network error, timeout,
unparseable body) or a successfully parsed payload.  `random.random()` draws
are modelled as a stream of rationals.  Each retry loop returns a trace:
the Python return value, the number of requests issued, and the list of
backoff delays slept.
-/

/-- One row of `data/books.json`, mirroring the `Book` TypedDict
(`process_csv.py` lines 28-37).  `year_read` is an `Int`, dates and ISBNs
are optional strings. -/
structure Book where
  id : String
  title : String
  authors : String
  year_read : Int
  date_read : Option String
  isbn : Option String
  cover_url : Option String
  format : Option String
  deriving Repr, DecidableEq, Inhabited

/-- Python truthiness of an optional string: `None` and `""` are falsy.
Used for `if book["isbn"]:` (line 147) and `if cover_url:` (line 149). -/
def pyTruthyStr : Option String → Bool
  | some s => s ≠ ""
  | none => false

/-- Outcome of one HEAD request in `verify_isbn_cover`: either an exception
(caught at line 134), or a response whose `Content-Length` header parsed to
the given integer (`none` = header absent, in which case the code takes the
default string `'0'`, line 130). -/
inductive HeadResponse where
  | exc : HeadResponse
  | ok : Option Int → HeadResponse
  deriving Repr, DecidableEq

/-- The integer the code compares against 1000:
`int(response.headers.get('Content-Length', '0'))` (lines 130-131). -/
def contentLengthVal (cl : Option Int) : Int := cl.getD 0

/-- First search result as read at lines 96-100: `cover_i` is `some` iff the
key is present, `isbn` is `some` iff the key is present (the value being the
JSON list of ISBN strings). -/
structure SearchDoc where
  cover_i : Option Int
  isbn : Option (List String)
  deriving Repr, DecidableEq

/-- Outcome of one search request in `fetch_cover_by_search`: either an
exception (caught at line 103), or a parsed JSON body whose `docs` key is
absent (`none`) or the given list. -/
inductive SearchResponse where
  | exc : SearchResponse
  | ok : Option (List SearchDoc) → SearchResponse
  deriving Repr, DecidableEq

/-- Cover URL built from a numeric cover id:
`f"https://covers.openlibrary.org/b/id/{doc['cover_i']}-M.jpg"` (line 98). -/
def coverUrlById (ci : Int) : String :=
  "https://covers.openlibrary.org/b/id/" ++ toString ci ++ "-M.jpg"

/-- Cover URL built from an ISBN:
`f"https://covers.openlibrary.org/b/isbn/{isbn}-M.jpg"` (lines 100, 119). -/
def coverUrlByIsbn (isbn : String) : String :=
  "https://covers.openlibrary.org/b/isbn/" ++ isbn ++ "-M.jpg"

/-- The raw query text combined at line 83 (`f"{title} {author}"`), the
argument of `urllib.parse.quote`.  The oracle for the search endpoint is
keyed on this text. -/
def searchQuery (title author : String) : String := title ++ " " ++ author

/-- Backoff delay of the search loop, line 106:
`delay = (2 ** attempt) + random.random()`. -/
def search_backoff_delay (attempt : Nat) (jitter : ℚ) : ℚ :=
  2 ^ attempt + jitter

/-- Backoff delay of the existence-check loop, line 136:
`delay = (2 ** attempt) + random.random()`. -/
def verify_backoff_delay (attempt : Nat) (jitter : ℚ) : ℚ :=
  2 ^ attempt + jitter

/-- Observable behaviour of one retry stage: the value returned, the number
of requests issued, and the backoff delays slept (in order). -/
structure StageTrace where
  result : Option String
  attempts : Nat
  delays : List ℚ
  deriving Repr, DecidableEq

/-- Body of the successful-response branch of `fetch_cover_by_search`,
lines 95-101: if `docs` is present and non-empty, inspect the first doc;
prefer `cover_i`, else a present non-empty `isbn` list; otherwise the
function falls through to `return None` at line 101. -/
def searchDocsResult : Option (List SearchDoc) → Option String
  | some (doc :: _) =>
      match doc.cover_i with
      | some ci => some (coverUrlById ci)
      | none =>
          match doc.isbn with
          | some (i :: _) => some (coverUrlByIsbn i)
          | _ => none
  | _ => none

/-- The `for attempt in range(max_retries)` loop of `fetch_cover_by_search`
(lines 86-109).  `resp` is the oracle already keyed to this request's query;
`fuel` is the number of remaining iterations (`max_retries - attempt`).  On
an exception at a non-final attempt the loop sleeps
`(2 ** attempt) + random.random()` and retries; on a final-attempt exception
it returns `None` (line 109); any successful response ends the loop at once
(lines 98, 100, 101). -/
def searchLoop (resp : Nat → SearchResponse) (jit : Nat → ℚ) :
    Nat → Nat → StageTrace
  | _, 0 => ⟨none, 0, []⟩
  | attempt, fuel + 1 =>
      match resp attempt with
      | SearchResponse.ok docs => ⟨searchDocsResult docs, 1, []⟩
      | SearchResponse.exc =>
          if fuel = 0 then ⟨none, 1, []⟩
          else
            let t := searchLoop resp jit (attempt + 1) fuel
            ⟨t.result, t.attempts + 1,
              search_backoff_delay attempt (jit attempt) :: t.delays⟩

/-- `fetch_cover_by_search(title, author, max_retries=3)` (lines 78-111).
`service` maps a raw query text and attempt number to that request's
outcome. -/
def fetch_cover_by_search (title author : String)
    (service : String → Nat → SearchResponse) (jit : Nat → ℚ)
    (max_retries : Nat := 3) : StageTrace :=
  searchLoop (service (searchQuery title author)) jit 0 max_retries

/-- The `for attempt in range(max_retries)` loop of `verify_isbn_cover`
(lines 121-137).  A successful HEAD response ends the loop at once: the URL
is returned when the parsed `Content-Length` exceeds 1000 (line 131),
otherwise `return None` at line 133; an exception retries with backoff
except on the final attempt, after which line 138 returns `None`. -/
def verifyLoop (url : String) (resp : Nat → HeadResponse) (jit : Nat → ℚ) :
    Nat → Nat → StageTrace
  | _, 0 => ⟨none, 0, []⟩
  | attempt, fuel + 1 =>
      match resp attempt with
      | HeadResponse.ok cl =>
          if 1000 < contentLengthVal cl then ⟨some url, 1, []⟩
          else ⟨none, 1, []⟩
      | HeadResponse.exc =>
          if fuel = 0 then ⟨none, 1, []⟩
          else
            let t := verifyLoop url resp jit (attempt + 1) fuel
            ⟨t.result, t.attempts + 1,
              verify_backoff_delay attempt (jit attempt) :: t.delays⟩

/-- `verify_isbn_cover(isbn, max_retries=2)` (lines 114-138).  `service`
maps a request URL and attempt number to that request's outcome. -/
def verify_isbn_cover (isbn : String)
    (service : String → Nat → HeadResponse) (jit : Nat → ℚ)
    (max_retries : Nat := 2) : StageTrace :=
  verifyLoop (coverUrlByIsbn isbn) (service (coverUrlByIsbn isbn)) jit 0
    max_retries

/-- Full observable behaviour of `fetch_cover_for_book` on one book:
the returned pair plus the trace of each stage (`none` = stage not run). -/
structure ResolveTrace where
  book_id : String
  cover_url : Option String
  verifyTrace : Option StageTrace
  searchTrace : Option StageTrace
  deriving Repr, DecidableEq

/-- `fetch_cover_for_book(book)` (lines 141-154), instrumented with the
per-stage traces.  `hservice` is the oracle of the covers endpoint (keyed by
request URL), `sservice` of the search endpoint (keyed by raw query text),
`hjit`/`sjit` the jitter streams of the two loops. -/
def fetch_cover_for_book_trace (book : Book)
    (hservice : String → Nat → HeadResponse)
    (sservice : String → Nat → SearchResponse)
    (hjit sjit : Nat → ℚ) : ResolveTrace :=
  if pyTruthyStr book.isbn then
    let v := verify_isbn_cover (book.isbn.getD "") hservice hjit 2
    if pyTruthyStr v.result then
      { book_id := book.id, cover_url := v.result,
        verifyTrace := some v, searchTrace := none }
    else
      let s := fetch_cover_by_search book.title book.authors sservice sjit 3
      { book_id := book.id, cover_url := s.result,
        verifyTrace := some v, searchTrace := some s }
  else
    let s := fetch_cover_by_search book.title book.authors sservice sjit 3
    { book_id := book.id, cover_url := s.result,
      verifyTrace := none, searchTrace := some s }

/-- `fetch_cover_for_book(book) -> (book_id, cover_url)` (lines 141-154). -/
def fetch_cover_for_book (book : Book)
    (hservice : String → Nat → HeadResponse)
    (sservice : String → Nat → SearchResponse)
    (hjit sjit : Nat → ℚ) : String × Option String :=
  let t := fetch_cover_for_book_trace book hservice sservice hjit sjit
  (t.book_id, t.cover_url)

/-- Index into `books` of the entry the dict
`book_lookup = {b["id"]: b for b in books}` (line 241) associates with a
given id: the LAST entry with that id, since later comprehension entries
overwrite earlier ones.  `none` when no entry has that id. -/
def lookupIdx : List Book → String → Option Nat
  | [], _ => none
  | b :: rest, bid =>
      match lookupIdx rest bid with
      | some j => some (j + 1)
      | none => if b.id = bid then some 0 else none

/-- In-place update of the book at a given position, modelling the mutation
`book_lookup[book_id]["cover_url"] = cover_url` (line 252) through the
object reference held by the dict. -/
def listModify : List Book → Nat → (Book → Book) → List Book
  | [], _, _ => []
  | b :: rest, 0, f => f b :: rest
  | b :: rest, i + 1, f => b :: listModify rest i f

/-- Handling of one completed future in the `as_completed` loop
(lines 250-253): read `(book_id, cover_url)` from the future of the book at
submission index `i` and write the cover into the store entry
`book_lookup[book_id]`.  `books0` is the original list the futures were
submitted over (its objects are the store's values); `bs` is the current
state of those objects. -/
def enrichStep (books0 : List Book)
    (hservice : String → Nat → HeadResponse)
    (sservice : String → Nat → SearchResponse)
    (hjit sjit : Nat → ℚ) (bs : List Book) (i : Nat) : List Book :=
  let book := books0.getD i default
  let r := fetch_cover_for_book book hservice sservice hjit sjit
  match lookupIdx books0 r.1 with
  | some idx => listModify bs idx (fun b => { b with cover_url := r.2 })
  | none => bs

/-- `enrich_with_covers(books, max_workers)` (lines 227-258).  One future is
submitted per list entry (line 245-248); `as_completed` yields each future
exactly once, in an order the runtime does not fix, modelled by `order`, a
permutation of the submission indices `0 .. books.length - 1`.  Each
completion writes that book's resolved cover into the store (line 252) and
the mutated input list is returned (line 258).  Progress printing and the
`completed` counter are observational only and not modelled. -/
def enrich_with_covers (books : List Book)
    (hservice : String → Nat → HeadResponse)
    (sservice : String → Nat → SearchResponse)
    (hjit sjit : Nat → ℚ) (order : List Nat) : List Book :=
  order.foldl (enrichStep books hservice sservice hjit sjit) books

/-! ### Observation predicates and unfolding lemmas -/

/-- Within budget `n`, the check observes a real cover: some attempt `i`
gets a successful HEAD response with parsed `Content-Length` above 1000,
all earlier attempts having raised. -/
def observesBig (r : Nat → HeadResponse) (n : Nat) : Prop :=
  ∃ i, i < n ∧ (∀ j, j < i → r j = HeadResponse.exc) ∧
    ∃ cl, r i = HeadResponse.ok cl ∧ 1000 < contentLengthVal cl

lemma searchLoop_ok {r : Nat → SearchResponse} {jit : Nat → ℚ}
    {attempt fuel : Nat} {docs : Option (List SearchDoc)}
    (h : r attempt = SearchResponse.ok docs) :
    searchLoop r jit attempt (fuel + 1) = ⟨searchDocsResult docs, 1, []⟩ := by
  simp [searchLoop, h]

lemma searchLoop_exc_last {r : Nat → SearchResponse} {jit : Nat → ℚ}
    {attempt : Nat} (h : r attempt = SearchResponse.exc) :
    searchLoop r jit attempt 1 = ⟨none, 1, []⟩ := by
  simp [searchLoop, h]

lemma searchLoop_exc_step {r : Nat → SearchResponse} {jit : Nat → ℚ}
    {attempt fuel : Nat} (h : r attempt = SearchResponse.exc)
    (hf : fuel ≠ 0) :
    searchLoop r jit attempt (fuel + 1) =
      ⟨(searchLoop r jit (attempt + 1) fuel).result,
       (searchLoop r jit (attempt + 1) fuel).attempts + 1,
       search_backoff_delay attempt (jit attempt) ::
         (searchLoop r jit (attempt + 1) fuel).delays⟩ := by
  simp [searchLoop, h, hf]

lemma verifyLoop_ok {url : String} {r : Nat → HeadResponse} {jit : Nat → ℚ}
    {attempt fuel : Nat} {cl : Option Int}
    (h : r attempt = HeadResponse.ok cl) :
    verifyLoop url r jit attempt (fuel + 1) =
      if 1000 < contentLengthVal cl then ⟨some url, 1, []⟩
      else ⟨none, 1, []⟩ := by
  simp [verifyLoop, h]

lemma verifyLoop_exc_last {url : String} {r : Nat → HeadResponse}
    {jit : Nat → ℚ} {attempt : Nat} (h : r attempt = HeadResponse.exc) :
    verifyLoop url r jit attempt 1 = ⟨none, 1, []⟩ := by
  simp [verifyLoop, h]

lemma verifyLoop_exc_step {url : String} {r : Nat → HeadResponse}
    {jit : Nat → ℚ} {attempt fuel : Nat}
    (h : r attempt = HeadResponse.exc) (hf : fuel ≠ 0) :
    verifyLoop url r jit attempt (fuel + 1) =
      ⟨(verifyLoop url r jit (attempt + 1) fuel).result,
       (verifyLoop url r jit (attempt + 1) fuel).attempts + 1,
       verify_backoff_delay attempt (jit attempt) ::
         (verifyLoop url r jit (attempt + 1) fuel).delays⟩ := by
  simp [verifyLoop, h, hf]

lemma coverUrlByIsbn_ne_empty (s : String) : coverUrlByIsbn s ≠ "" := by
  intro h
  have hlen := congrArg String.length h
  simp [coverUrlByIsbn, String.length_append] at hlen
  exact absurd hlen.2 (by decide)

lemma pyTruthyStr_some {s : String} (h : s ≠ "") :
    pyTruthyStr (some s) = true := by
  simp [pyTruthyStr, h]

lemma pyTruthyStr_none : pyTruthyStr none = false := rfl

/-- The existence check with budget 2 returns the URL iff it observes a
real cover within two attempts. -/
lemma verifyLoop_two_result_iff (url : String) (r : Nat → HeadResponse)
    (jit : Nat → ℚ) :
    (verifyLoop url r jit 0 2).result = some url ↔ observesBig r 2 := by
  constructor
  · intro h
    cases h0 : r 0 with
    | ok cl =>
        by_cases hb : 1000 < contentLengthVal cl
        · exact ⟨0, by omega, fun j hj => absurd hj (by omega), cl, h0, hb⟩
        · simp [verifyLoop, h0, hb] at h
    | exc =>
        cases h1 : r 1 with
        | ok cl =>
            by_cases hb : 1000 < contentLengthVal cl
            · refine ⟨1, by omega, ?_, cl, h1, hb⟩
              intro j hj
              interval_cases j
              exact h0
            · simp [verifyLoop, h0, h1, hb] at h
        | exc => simp [verifyLoop, h0, h1] at h
  · rintro ⟨i, hi, hprev, cl, hok, hb⟩
    interval_cases i
    · simp [verifyLoop, hok, hb]
    · have h0 := hprev 0 (by omega)
      simp [verifyLoop, h0, hok, hb]

/-- The result of the budget-2 existence check is `none` or the URL. -/
lemma verifyLoop_two_result_cases (url : String) (r : Nat → HeadResponse)
    (jit : Nat → ℚ) :
    (verifyLoop url r jit 0 2).result = none ∨
      (verifyLoop url r jit 0 2).result = some url := by
  cases h0 : r 0 with
  | ok cl =>
      by_cases hb : 1000 < contentLengthVal cl <;> simp [verifyLoop, h0, hb]
  | exc =>
      cases h1 : r 1 with
      | ok cl =>
          by_cases hb : 1000 < contentLengthVal cl <;>
            simp [verifyLoop, h0, h1, hb]
      | exc => simp [verifyLoop, h0, h1]

lemma trace_no_isbn (book : Book) (hs : String → Nat → HeadResponse)
    (ss : String → Nat → SearchResponse) (hj sj : Nat → ℚ)
    (h : pyTruthyStr book.isbn = false) :
    fetch_cover_for_book_trace book hs ss hj sj =
      { book_id := book.id,
        cover_url := (fetch_cover_by_search book.title book.authors ss sj 3).result,
        verifyTrace := none,
        searchTrace := some (fetch_cover_by_search book.title book.authors ss sj 3) } := by
  simp [fetch_cover_for_book_trace, h]

lemma trace_isbn_success (book : Book) (hs : String → Nat → HeadResponse)
    (ss : String → Nat → SearchResponse) (hj sj : Nat → ℚ)
    (h : pyTruthyStr book.isbn = true)
    (hv : pyTruthyStr (verify_isbn_cover (book.isbn.getD "") hs hj 2).result = true) :
    fetch_cover_for_book_trace book hs ss hj sj =
      { book_id := book.id,
        cover_url := (verify_isbn_cover (book.isbn.getD "") hs hj 2).result,
        verifyTrace := some (verify_isbn_cover (book.isbn.getD "") hs hj 2),
        searchTrace := none } := by
  simp [fetch_cover_for_book_trace, h, hv]

lemma trace_isbn_fail (book : Book) (hs : String → Nat → HeadResponse)
    (ss : String → Nat → SearchResponse) (hj sj : Nat → ℚ)
    (h : pyTruthyStr book.isbn = true)
    (hv : pyTruthyStr (verify_isbn_cover (book.isbn.getD "") hs hj 2).result = false) :
    fetch_cover_for_book_trace book hs ss hj sj =
      { book_id := book.id,
        cover_url := (fetch_cover_by_search book.title book.authors ss sj 3).result,
        verifyTrace := some (verify_isbn_cover (book.isbn.getD "") hs hj 2),
        searchTrace := some (fetch_cover_by_search book.title book.authors ss sj 3) } := by
  simp [fetch_cover_for_book_trace, h, hv]

lemma verifyLoop_two_facts (url : String) (r : Nat → HeadResponse)
    (jit : Nat → ℚ) :
    1 ≤ (verifyLoop url r jit 0 2).attempts ∧
    (verifyLoop url r jit 0 2).attempts ≤ 2 ∧
    ((verifyLoop url r jit 0 2).attempts = 2 → r 0 = HeadResponse.exc) ∧
    (r 0 ≠ HeadResponse.exc → (verifyLoop url r jit 0 2).attempts = 1) ∧
    (verifyLoop url r jit 0 2).delays.length =
      (verifyLoop url r jit 0 2).attempts - 1 := by
  cases h0 : r 0 with
  | ok cl =>
      by_cases hb : 1000 < contentLengthVal cl <;> simp [verifyLoop, h0, hb]
  | exc =>
      cases h1 : r 1 with
      | ok cl =>
          by_cases hb : 1000 < contentLengthVal cl <;>
            simp [verifyLoop, h0, h1, hb]
      | exc => simp [verifyLoop, h0, h1]

lemma searchLoop_three_facts (r : Nat → SearchResponse) (jit : Nat → ℚ) :
    1 ≤ (searchLoop r jit 0 3).attempts ∧
    (searchLoop r jit 0 3).attempts ≤ 3 ∧
    (2 ≤ (searchLoop r jit 0 3).attempts → r 0 = SearchResponse.exc) ∧
    ((searchLoop r jit 0 3).attempts = 3 → r 1 = SearchResponse.exc) ∧
    (r 0 ≠ SearchResponse.exc → (searchLoop r jit 0 3).attempts = 1) ∧
    (searchLoop r jit 0 3).delays.length =
      (searchLoop r jit 0 3).attempts - 1 := by
  cases h0 : r 0 with
  | ok docs => simp [searchLoop, h0]
  | exc =>
      cases h1 : r 1 with
      | ok docs => simp [searchLoop, h0, h1]
      | exc =>
          cases h2 : r 2 with
          | ok docs => simp [searchLoop, h0, h1, h2]
          | exc => simp [searchLoop, h0, h1, h2]

/-! ### Concrete fixtures used by the witness theorems -/

/-- A concrete record with a cleaned 13-digit ISBN. -/
def wBook : Book :=
  { id := "book_0", title := "X", authors := "Y", year_read := 2020,
    date_read := none, isbn := some "9780000000000", cover_url := none,
    format := none }

/-- Covers-endpoint oracle answering every HEAD request with a 5000-byte
payload. -/
def wHeadBig : String → Nat → HeadResponse := fun _ _ => HeadResponse.ok (some 5000)

/-- Covers-endpoint oracle answering every HEAD request with a 200-byte
placeholder. -/
def wHeadSmall : String → Nat → HeadResponse := fun _ _ => HeadResponse.ok (some 200)

/-- Covers-endpoint oracle whose responses carry no Content-Length header. -/
def wHeadNoLen : String → Nat → HeadResponse := fun _ _ => HeadResponse.ok none

/-- Covers-endpoint oracle failing every HEAD request. -/
def wHeadFail : String → Nat → HeadResponse := fun _ _ => HeadResponse.exc

/-- Search-endpoint oracle returning one doc with a direct cover id. -/
def wSearchHit : String → Nat → SearchResponse :=
  fun _ _ => SearchResponse.ok (some [{ cover_i := some 12345, isbn := some ["1111111111"] }])

/-- Search-endpoint oracle returning zero docs. -/
def wSearchEmpty : String → Nat → SearchResponse :=
  fun _ _ => SearchResponse.ok (some [])

/-- A zero jitter stream. -/
def wJit : Nat → ℚ := fun _ => 0

/-! ### Claims -/

/-- C5: the backoff delay computed before retry `n` is `2^n` plus the jitter
draw, identically in the existence-check loop (line 136) and the search loop
(line 106); with the jitter in `[0, 1)` the delay lies in `[2^n, 2^n + 1)`
seconds. -/
theorem backoff_delay_formula_and_bounds (n : Nat) (j : ℚ)
    (hj0 : 0 ≤ j) (hj1 : j < 1) :
    verify_backoff_delay n j = 2 ^ n + j ∧
    search_backoff_delay n j = verify_backoff_delay n j ∧
    2 ^ n ≤ verify_backoff_delay n j ∧
    verify_backoff_delay n j < 2 ^ n + 1 ∧
    2 ^ n ≤ search_backoff_delay n j ∧
    search_backoff_delay n j < 2 ^ n + 1 := by
  unfold verify_backoff_delay search_backoff_delay
  exact ⟨rfl, rfl, by linarith, by linarith, by linarith, by linarith⟩

theorem backoff_delay_formula_and_bounds_witness :
    (0 : ℚ) ≤ 1 / 2 ∧ (1 / 2 : ℚ) < 1 ∧
    (verify_backoff_delay 3 (1 / 2) = 2 ^ 3 + 1 / 2 ∧
     search_backoff_delay 3 (1 / 2) = verify_backoff_delay 3 (1 / 2) ∧
     2 ^ 3 ≤ verify_backoff_delay 3 (1 / 2) ∧
     verify_backoff_delay 3 (1 / 2) < 2 ^ 3 + 1 ∧
     2 ^ 3 ≤ search_backoff_delay 3 (1 / 2) ∧
     search_backoff_delay 3 (1 / 2) < 2 ^ 3 + 1) :=
  ⟨by norm_num, by norm_num,
    backoff_delay_formula_and_bounds 3 (1 / 2) (by norm_num) (by norm_num)⟩

/-- C4: `fetch_cover_for_book` is a total function of the record and of an
arbitrary behaviour of the remote service (exceptions on any attempt,
missing headers, unparseable bodies are all values of the oracle): it always
returns the pair of the record's id and an optional URL, never propagating
an error. -/
theorem fetch_cover_for_book_total (book : Book)
    (hservice : String → Nat → HeadResponse)
    (sservice : String → Nat → SearchResponse) (hjit sjit : Nat → ℚ) :
    (fetch_cover_for_book book hservice sservice hjit sjit).1 = book.id ∧
    fetch_cover_for_book book hservice sservice hjit sjit =
      (book.id,
        (fetch_cover_for_book_trace book hservice sservice hjit sjit).cover_url) := by
  have hfst :
      (fetch_cover_for_book_trace book hservice sservice hjit sjit).book_id =
        book.id := by
    by_cases h : pyTruthyStr book.isbn
    · by_cases hv :
        pyTruthyStr (verify_isbn_cover (book.isbn.getD "") hservice hjit 2).result
      · simp [fetch_cover_for_book_trace, h, hv]
      · simp [fetch_cover_for_book_trace, h, hv]
    · simp [fetch_cover_for_book_trace, h]
  exact ⟨by simp [fetch_cover_for_book, hfst],
    by simp [fetch_cover_for_book, hfst]⟩

/-- C6: per record, the existence check issues at most 2 requests and the
search stage at most 3 (and each at least one); a request is re-issued only
when the previous one raised (a second HEAD request forces an exception at
attempt 0; a second/third search request forces exceptions at attempts 0/1);
any non-raising first response — in particular a placeholder-sized success —
ends the stage after exactly one request; and the number of backoff delays
slept is one less than the number of requests, i.e. a delay sits exactly
between consecutive attempts. -/
theorem stage_attempt_budgets (isbn title author : String)
    (hserv : String → Nat → HeadResponse)
    (sserv : String → Nat → SearchResponse) (hjit sjit : Nat → ℚ) :
    1 ≤ (verify_isbn_cover isbn hserv hjit 2).attempts ∧
    (verify_isbn_cover isbn hserv hjit 2).attempts ≤ 2 ∧
    1 ≤ (fetch_cover_by_search title author sserv sjit 3).attempts ∧
    (fetch_cover_by_search title author sserv sjit 3).attempts ≤ 3 ∧
    ((verify_isbn_cover isbn hserv hjit 2).attempts = 2 →
      hserv (coverUrlByIsbn isbn) 0 = HeadResponse.exc) ∧
    (2 ≤ (fetch_cover_by_search title author sserv sjit 3).attempts →
      sserv (searchQuery title author) 0 = SearchResponse.exc) ∧
    ((fetch_cover_by_search title author sserv sjit 3).attempts = 3 →
      sserv (searchQuery title author) 1 = SearchResponse.exc) ∧
    (hserv (coverUrlByIsbn isbn) 0 ≠ HeadResponse.exc →
      (verify_isbn_cover isbn hserv hjit 2).attempts = 1) ∧
    (sserv (searchQuery title author) 0 ≠ SearchResponse.exc →
      (fetch_cover_by_search title author sserv sjit 3).attempts = 1) ∧
    (verify_isbn_cover isbn hserv hjit 2).delays.length =
      (verify_isbn_cover isbn hserv hjit 2).attempts - 1 ∧
    (fetch_cover_by_search title author sserv sjit 3).delays.length =
      (fetch_cover_by_search title author sserv sjit 3).attempts - 1 := by
  obtain ⟨v1, v2, v3, v4, v5⟩ :=
    verifyLoop_two_facts (coverUrlByIsbn isbn) (hserv (coverUrlByIsbn isbn)) hjit
  obtain ⟨s1, s2, s3, s4, s5, s6⟩ :=
    searchLoop_three_facts (sserv (searchQuery title author)) sjit
  exact ⟨v1, v2, s1, s2, v3, s3, s4, v4, s5, v5, s6⟩

theorem stage_attempt_budgets_witness :
    1 ≤ (verify_isbn_cover "9780000000000" wHeadSmall wJit 2).attempts ∧
    (verify_isbn_cover "9780000000000" wHeadSmall wJit 2).attempts ≤ 2 ∧
    1 ≤ (fetch_cover_by_search "X" "Y" wSearchEmpty wJit 3).attempts ∧
    (fetch_cover_by_search "X" "Y" wSearchEmpty wJit 3).attempts ≤ 3 ∧
    ((verify_isbn_cover "9780000000000" wHeadSmall wJit 2).attempts = 2 →
      wHeadSmall (coverUrlByIsbn "9780000000000") 0 = HeadResponse.exc) ∧
    (2 ≤ (fetch_cover_by_search "X" "Y" wSearchEmpty wJit 3).attempts →
      wSearchEmpty (searchQuery "X" "Y") 0 = SearchResponse.exc) ∧
    ((fetch_cover_by_search "X" "Y" wSearchEmpty wJit 3).attempts = 3 →
      wSearchEmpty (searchQuery "X" "Y") 1 = SearchResponse.exc) ∧
    (wHeadSmall (coverUrlByIsbn "9780000000000") 0 ≠ HeadResponse.exc →
      (verify_isbn_cover "9780000000000" wHeadSmall wJit 2).attempts = 1) ∧
    (wSearchEmpty (searchQuery "X" "Y") 0 ≠ SearchResponse.exc →
      (fetch_cover_by_search "X" "Y" wSearchEmpty wJit 3).attempts = 1) ∧
    (verify_isbn_cover "9780000000000" wHeadSmall wJit 2).delays.length =
      (verify_isbn_cover "9780000000000" wHeadSmall wJit 2).attempts - 1 ∧
    (fetch_cover_by_search "X" "Y" wSearchEmpty wJit 3).delays.length =
      (fetch_cover_by_search "X" "Y" wSearchEmpty wJit 3).attempts - 1 :=
  stage_attempt_budgets "9780000000000" "X" "Y" wHeadSmall wSearchEmpty wJit wJit

/-- C10: when the first HEAD response of the existence check carries no
Content-Length header, the code parses the default string `'0'`, classifies
the cover as a placeholder, and returns absent after that single attempt
(no retry, no backoff delay); the record then falls through to the search
stage and takes its result. -/
theorem missing_content_length_is_placeholder (book : Book) (code : String)
    (hserv : String → Nat → HeadResponse)
    (sserv : String → Nat → SearchResponse) (hjit sjit : Nat → ℚ)
    (hcode : book.isbn = some code) (hne : code ≠ "")
    (h0 : hserv (coverUrlByIsbn code) 0 = HeadResponse.ok none) :
    (fetch_cover_for_book_trace book hserv sserv hjit sjit).verifyTrace =
      some { result := none, attempts := 1, delays := [] } ∧
    (fetch_cover_for_book_trace book hserv sserv hjit sjit).searchTrace =
      some (fetch_cover_by_search book.title book.authors sserv sjit 3) ∧
    (fetch_cover_for_book book hserv sserv hjit sjit).2 =
      (fetch_cover_by_search book.title book.authors sserv sjit 3).result := by
  have ht : pyTruthyStr book.isbn = true := by
    rw [hcode]; exact pyTruthyStr_some hne
  have hg : book.isbn.getD "" = code := by rw [hcode]; rfl
  have hv : verify_isbn_cover (book.isbn.getD "") hserv hjit 2 =
      { result := none, attempts := 1, delays := [] } := by
    rw [hg]
    simp [verify_isbn_cover, verifyLoop, h0, contentLengthVal]
  have hfail :
      pyTruthyStr (verify_isbn_cover (book.isbn.getD "") hserv hjit 2).result
        = false := by
    rw [hv]; rfl
  have htr := trace_isbn_fail book hserv sserv hjit sjit ht hfail
  refine ⟨?_, ?_, ?_⟩
  · rw [htr, hv]
  · rw [htr]
  · simp [fetch_cover_for_book, htr]

theorem missing_content_length_is_placeholder_witness :
    wBook.isbn = some "9780000000000" ∧ "9780000000000" ≠ "" ∧
    wHeadNoLen (coverUrlByIsbn "9780000000000") 0 = HeadResponse.ok none ∧
    ((fetch_cover_for_book_trace wBook wHeadNoLen wSearchHit wJit wJit).verifyTrace =
        some { result := none, attempts := 1, delays := [] } ∧
      (fetch_cover_for_book_trace wBook wHeadNoLen wSearchHit wJit wJit).searchTrace =
        some (fetch_cover_by_search wBook.title wBook.authors wSearchHit wJit 3) ∧
      (fetch_cover_for_book wBook wHeadNoLen wSearchHit wJit wJit).2 =
        (fetch_cover_by_search wBook.title wBook.authors wSearchHit wJit 3).result) :=
  ⟨rfl, by decide, rfl,
    missing_content_length_is_placeholder wBook "9780000000000" wHeadNoLen
      wSearchHit wJit wJit rfl (by decide) rfl⟩

/-- C1: for a record whose identifier-code is present (Python-truthy), if
the existence check observes a HEAD response — the first one not to raise,
within its 2-attempt budget — whose parsed Content-Length exceeds 1000,
then `fetch_cover_for_book` returns the direct by-code cover URL for that
code and the search stage is never invoked. -/
theorem verified_isbn_short_circuits_search (book : Book) (code : String)
    (cl : Option Int) (i : Nat)
    (hserv : String → Nat → HeadResponse)
    (sserv : String → Nat → SearchResponse) (hjit sjit : Nat → ℚ)
    (hcode : book.isbn = some code) (hne : code ≠ "")
    (hi : i < 2)
    (hprev : i = 1 → hserv (coverUrlByIsbn code) 0 = HeadResponse.exc)
    (hok : hserv (coverUrlByIsbn code) i = HeadResponse.ok cl)
    (hbig : 1000 < contentLengthVal cl) :
    fetch_cover_for_book book hserv sserv hjit sjit =
      (book.id, some (coverUrlByIsbn code)) ∧
    (fetch_cover_for_book_trace book hserv sserv hjit sjit).searchTrace =
      none := by
  have ht : pyTruthyStr book.isbn = true := by
    rw [hcode]; exact pyTruthyStr_some hne
  have hg : book.isbn.getD "" = code := by rw [hcode]; rfl
  have hobs : observesBig (hserv (coverUrlByIsbn code)) 2 := by
    refine ⟨i, hi, ?_, cl, hok, hbig⟩
    intro j hj
    interval_cases i
    · omega
    · interval_cases j
      exact hprev rfl
  have hvres :
      (verify_isbn_cover (book.isbn.getD "") hserv hjit 2).result =
        some (coverUrlByIsbn code) := by
    rw [hg]
    exact (verifyLoop_two_result_iff (coverUrlByIsbn code)
      (hserv (coverUrlByIsbn code)) hjit).mpr hobs
  have hsucc :
      pyTruthyStr (verify_isbn_cover (book.isbn.getD "") hserv hjit 2).result
        = true := by
    rw [hvres]
    exact pyTruthyStr_some (coverUrlByIsbn_ne_empty code)
  have htr := trace_isbn_success book hserv sserv hjit sjit ht hsucc
  constructor
  · simp [fetch_cover_for_book, htr, hvres]
  · rw [htr]

theorem verified_isbn_short_circuits_search_witness :
    wBook.isbn = some "9780000000000" ∧ "9780000000000" ≠ "" ∧ (0 : Nat) < 2 ∧
    wHeadBig (coverUrlByIsbn "9780000000000") 0 = HeadResponse.ok (some 5000) ∧
    (1000 : Int) < contentLengthVal (some 5000) ∧
    (fetch_cover_for_book wBook wHeadBig wSearchHit wJit wJit =
        ("book_0", some (coverUrlByIsbn "9780000000000")) ∧
      (fetch_cover_for_book_trace wBook wHeadBig wSearchHit wJit wJit).searchTrace =
        none) :=
  ⟨rfl, by decide, by decide, rfl, by decide,
    verified_isbn_short_circuits_search wBook "9780000000000" (some 5000) 0
      wHeadBig wSearchHit wJit wJit rfl (by decide) (by decide)
      (by intro h; exact absurd h (by decide)) rfl (by decide)⟩

/-- C8: on the first non-raising search response (within the 3-attempt
budget) the stage's result is determined by the first doc only: a present
`cover_i` yields the by-id URL; otherwise a present non-empty `isbn` list
yields the by-code URL of its first entry; otherwise — and also when `docs`
is absent or empty — the result is absent. -/
theorem search_first_doc_preference (title author : String)
    (sserv : String → Nat → SearchResponse) (sjit : Nat → ℚ)
    (i : Nat) (docs : Option (List SearchDoc)) (d : SearchDoc)
    (rest : List SearchDoc) (ci : Int) (s : String) (l : List String)
    (hi : i < 3)
    (hp0 : 1 ≤ i → sserv (searchQuery title author) 0 = SearchResponse.exc)
    (hp1 : i = 2 → sserv (searchQuery title author) 1 = SearchResponse.exc)
    (hok : sserv (searchQuery title author) i = SearchResponse.ok docs) :
    (fetch_cover_by_search title author sserv sjit 3).result =
      searchDocsResult docs ∧
    (docs = some (d :: rest) → d.cover_i = some ci →
      (fetch_cover_by_search title author sserv sjit 3).result =
        some (coverUrlById ci)) ∧
    (docs = some (d :: rest) → d.cover_i = none → d.isbn = some (s :: l) →
      (fetch_cover_by_search title author sserv sjit 3).result =
        some (coverUrlByIsbn s)) ∧
    (docs = some (d :: rest) → d.cover_i = none → d.isbn = none →
      (fetch_cover_by_search title author sserv sjit 3).result = none) ∧
    (docs = some (d :: rest) → d.cover_i = none → d.isbn = some [] →
      (fetch_cover_by_search title author sserv sjit 3).result = none) ∧
    (docs = none →
      (fetch_cover_by_search title author sserv sjit 3).result = none) ∧
    (docs = some [] →
      (fetch_cover_by_search title author sserv sjit 3).result = none) := by
  have hR : (fetch_cover_by_search title author sserv sjit 3).result =
      searchDocsResult docs := by
    interval_cases i
    · simp [fetch_cover_by_search, searchLoop, hok]
    · have h0 := hp0 (by omega)
      simp [fetch_cover_by_search, searchLoop, h0, hok]
    · have h0 := hp0 (by omega)
      have h1 := hp1 rfl
      simp [fetch_cover_by_search, searchLoop, h0, h1, hok]
  refine ⟨hR, ?_, ?_, ?_, ?_, ?_, ?_⟩
  · intro hd hci
    rw [hR, hd]
    simp [searchDocsResult, hci]
  · intro hd hci hisbn
    rw [hR, hd]
    simp [searchDocsResult, hci, hisbn]
  · intro hd hci hisbn
    rw [hR, hd]
    simp [searchDocsResult, hci, hisbn]
  · intro hd hci hisbn
    rw [hR, hd]
    simp [searchDocsResult, hci, hisbn]
  · intro hd
    rw [hR, hd]
    simp [searchDocsResult]
  · intro hd
    rw [hR, hd]
    simp [searchDocsResult]

/-- The doc returned by the `wSearchHit` fixture. -/
def wDoc : SearchDoc := { cover_i := some 12345, isbn := some ["1111111111"] }

theorem search_first_doc_preference_witness :
    (0 : Nat) < 3 ∧
    wSearchHit (searchQuery "X" "Y") 0 = SearchResponse.ok (some [wDoc]) ∧
    ((fetch_cover_by_search "X" "Y" wSearchHit wJit 3).result =
        searchDocsResult (some [wDoc]) ∧
      (some [wDoc] = some ([wDoc] : List SearchDoc) → wDoc.cover_i = some 12345 →
        (fetch_cover_by_search "X" "Y" wSearchHit wJit 3).result =
          some (coverUrlById 12345)) ∧
      (some [wDoc] = some ([wDoc] : List SearchDoc) → wDoc.cover_i = none →
        wDoc.isbn = some ["1111111111"] →
        (fetch_cover_by_search "X" "Y" wSearchHit wJit 3).result =
          some (coverUrlByIsbn "1111111111")) ∧
      (some [wDoc] = some ([wDoc] : List SearchDoc) → wDoc.cover_i = none →
        wDoc.isbn = none →
        (fetch_cover_by_search "X" "Y" wSearchHit wJit 3).result = none) ∧
      (some [wDoc] = some ([wDoc] : List SearchDoc) → wDoc.cover_i = none →
        wDoc.isbn = some [] →
        (fetch_cover_by_search "X" "Y" wSearchHit wJit 3).result = none) ∧
      ((some [wDoc] : Option (List SearchDoc)) = none →
        (fetch_cover_by_search "X" "Y" wSearchHit wJit 3).result = none) ∧
      (some [wDoc] = some ([] : List SearchDoc) →
        (fetch_cover_by_search "X" "Y" wSearchHit wJit 3).result = none)) :=
  ⟨by decide, rfl,
    search_first_doc_preference "X" "Y" wSearchHit wJit 0 (some [wDoc]) wDoc
      [] 12345 "1111111111" [] (by decide)
      (by intro h; exact absurd h (by decide))
      (by intro h; exact absurd h (by decide)) rfl⟩

lemma verify_result_none_of_small (code : String)
    (hserv : String → Nat → HeadResponse) (hjit : Nat → ℚ)
    (i : Nat) (cl : Option Int) (hi : i < 2)
    (hprev : i = 1 → hserv (coverUrlByIsbn code) 0 = HeadResponse.exc)
    (hok : hserv (coverUrlByIsbn code) i = HeadResponse.ok cl)
    (hsm : contentLengthVal cl ≤ 1000) :
    (verify_isbn_cover code hserv hjit 2).result = none := by
  have hb : ¬ 1000 < contentLengthVal cl := not_lt.mpr hsm
  interval_cases i
  · simp [verify_isbn_cover, verifyLoop, hok, hb]
  · have h0 := hprev rfl
    simp [verify_isbn_cover, verifyLoop, h0, hok, hb]

lemma verify_result_none_of_allexc (code : String)
    (hserv : String → Nat → HeadResponse) (hjit : Nat → ℚ)
    (h0 : hserv (coverUrlByIsbn code) 0 = HeadResponse.exc)
    (h1 : hserv (coverUrlByIsbn code) 1 = HeadResponse.exc) :
    (verify_isbn_cover code hserv hjit 2).result = none := by
  simp [verify_isbn_cover, verifyLoop, h0, h1]

/-- C2: the search stage runs exactly when by-code verification does not
succeed.  (A) With no Python-truthy identifier-code the existence check is
skipped entirely and the record's result is the search stage's result.
(B) With a code whose first observed HEAD response (within budget) reports
at most 1000 bytes the record proceeds to search and takes its result.
(C) Likewise when every HEAD attempt raises.  (D) In general the search
stage is skipped iff the existence check ran and returned a truthy URL. -/
theorem search_iff_verification_fails (book : Book) (code : String)
    (cl : Option Int) (i : Nat)
    (hserv : String → Nat → HeadResponse)
    (sserv : String → Nat → SearchResponse) (hjit sjit : Nat → ℚ) :
    (pyTruthyStr book.isbn = false →
      (fetch_cover_for_book_trace book hserv sserv hjit sjit).verifyTrace = none ∧
      (fetch_cover_for_book_trace book hserv sserv hjit sjit).searchTrace =
        some (fetch_cover_by_search book.title book.authors sserv sjit 3) ∧
      (fetch_cover_for_book book hserv sserv hjit sjit).2 =
        (fetch_cover_by_search book.title book.authors sserv sjit 3).result) ∧
    (book.isbn = some code → code ≠ "" → i < 2 →
      (i = 1 → hserv (coverUrlByIsbn code) 0 = HeadResponse.exc) →
      hserv (coverUrlByIsbn code) i = HeadResponse.ok cl →
      contentLengthVal cl ≤ 1000 →
      (fetch_cover_for_book_trace book hserv sserv hjit sjit).searchTrace =
        some (fetch_cover_by_search book.title book.authors sserv sjit 3) ∧
      (fetch_cover_for_book book hserv sserv hjit sjit).2 =
        (fetch_cover_by_search book.title book.authors sserv sjit 3).result) ∧
    (book.isbn = some code → code ≠ "" →
      hserv (coverUrlByIsbn code) 0 = HeadResponse.exc →
      hserv (coverUrlByIsbn code) 1 = HeadResponse.exc →
      (fetch_cover_for_book_trace book hserv sserv hjit sjit).searchTrace =
        some (fetch_cover_by_search book.title book.authors sserv sjit 3) ∧
      (fetch_cover_for_book book hserv sserv hjit sjit).2 =
        (fetch_cover_by_search book.title book.authors sserv sjit 3).result) ∧
    ((fetch_cover_for_book_trace book hserv sserv hjit sjit).searchTrace = none ↔
      Option.elim
        (fetch_cover_for_book_trace book hserv sserv hjit sjit).verifyTrace
        false (fun v => pyTruthyStr v.result) = true) := by
  refine ⟨?_, ?_, ?_, ?_⟩
  · intro h
    have htr := trace_no_isbn book hserv sserv hjit sjit h
    exact ⟨by rw [htr], by rw [htr], by simp [fetch_cover_for_book, htr]⟩
  · intro hcode hne hi hprev hok hsm
    have ht : pyTruthyStr book.isbn = true := by
      rw [hcode]; exact pyTruthyStr_some hne
    have hg : book.isbn.getD "" = code := by rw [hcode]; rfl
    have hfail :
        pyTruthyStr (verify_isbn_cover (book.isbn.getD "") hserv hjit 2).result
          = false := by
      rw [hg, verify_result_none_of_small code hserv hjit i cl hi hprev hok hsm]
      rfl
    have htr := trace_isbn_fail book hserv sserv hjit sjit ht hfail
    exact ⟨by rw [htr], by simp [fetch_cover_for_book, htr]⟩
  · intro hcode hne h0 h1
    have ht : pyTruthyStr book.isbn = true := by
      rw [hcode]; exact pyTruthyStr_some hne
    have hg : book.isbn.getD "" = code := by rw [hcode]; rfl
    have hfail :
        pyTruthyStr (verify_isbn_cover (book.isbn.getD "") hserv hjit 2).result
          = false := by
      rw [hg, verify_result_none_of_allexc code hserv hjit h0 h1]
      rfl
    have htr := trace_isbn_fail book hserv sserv hjit sjit ht hfail
    exact ⟨by rw [htr], by simp [fetch_cover_for_book, htr]⟩
  · by_cases h : pyTruthyStr book.isbn
    · by_cases hv :
        pyTruthyStr (verify_isbn_cover (book.isbn.getD "") hserv hjit 2).result
      · have htr := trace_isbn_success book hserv sserv hjit sjit h hv
        rw [htr]
        simp [hv]
      · have htr := trace_isbn_fail book hserv sserv hjit sjit h
          (by simpa using hv)
        rw [htr]
        simp [hv]
    · have htr := trace_no_isbn book hserv sserv hjit sjit
        (by simpa using h)
      rw [htr]
      simp

theorem search_iff_verification_fails_witness :
    (pyTruthyStr wBook.isbn = false →
      (fetch_cover_for_book_trace wBook wHeadSmall wSearchHit wJit wJit).verifyTrace = none ∧
      (fetch_cover_for_book_trace wBook wHeadSmall wSearchHit wJit wJit).searchTrace =
        some (fetch_cover_by_search wBook.title wBook.authors wSearchHit wJit 3) ∧
      (fetch_cover_for_book wBook wHeadSmall wSearchHit wJit wJit).2 =
        (fetch_cover_by_search wBook.title wBook.authors wSearchHit wJit 3).result) ∧
    (wBook.isbn = some "9780000000000" → "9780000000000" ≠ "" → (0 : Nat) < 2 →
      ((0 : Nat) = 1 → wHeadSmall (coverUrlByIsbn "9780000000000") 0 = HeadResponse.exc) →
      wHeadSmall (coverUrlByIsbn "9780000000000") 0 = HeadResponse.ok (some 200) →
      contentLengthVal (some 200) ≤ 1000 →
      (fetch_cover_for_book_trace wBook wHeadSmall wSearchHit wJit wJit).searchTrace =
        some (fetch_cover_by_search wBook.title wBook.authors wSearchHit wJit 3) ∧
      (fetch_cover_for_book wBook wHeadSmall wSearchHit wJit wJit).2 =
        (fetch_cover_by_search wBook.title wBook.authors wSearchHit wJit 3).result) ∧
    (wBook.isbn = some "9780000000000" → "9780000000000" ≠ "" →
      wHeadSmall (coverUrlByIsbn "9780000000000") 0 = HeadResponse.exc →
      wHeadSmall (coverUrlByIsbn "9780000000000") 1 = HeadResponse.exc →
      (fetch_cover_for_book_trace wBook wHeadSmall wSearchHit wJit wJit).searchTrace =
        some (fetch_cover_by_search wBook.title wBook.authors wSearchHit wJit 3) ∧
      (fetch_cover_for_book wBook wHeadSmall wSearchHit wJit wJit).2 =
        (fetch_cover_by_search wBook.title wBook.authors wSearchHit wJit 3).result) ∧
    ((fetch_cover_for_book_trace wBook wHeadSmall wSearchHit wJit wJit).searchTrace = none ↔
      Option.elim
        (fetch_cover_for_book_trace wBook wHeadSmall wSearchHit wJit wJit).verifyTrace
        false (fun v => pyTruthyStr v.result) = true) :=
  search_iff_verification_fails wBook "9780000000000" (some 200) 0
    wHeadSmall wSearchHit wJit wJit

/-! ### Store-update lemmas for the scheduler -/

lemma fetch_cover_for_book_fst (book : Book)
    (hs : String → Nat → HeadResponse) (ss : String → Nat → SearchResponse)
    (hj sj : Nat → ℚ) :
    (fetch_cover_for_book book hs ss hj sj).1 = book.id := by
  by_cases h : pyTruthyStr book.isbn
  · by_cases hv :
      pyTruthyStr (verify_isbn_cover (book.isbn.getD "") hs hj 2).result
    · simp [fetch_cover_for_book, fetch_cover_for_book_trace, h, hv]
    · simp [fetch_cover_for_book, fetch_cover_for_book_trace, h, hv]
  · simp [fetch_cover_for_book, fetch_cover_for_book_trace, h]

lemma listModify_length (bs : List Book) (i : Nat) (f : Book → Book) :
    (listModify bs i f).length = bs.length := by
  induction bs generalizing i with
  | nil => rfl
  | cons b rest ih =>
      cases i with
      | zero => rfl
      | succ i => simp [listModify, ih]

lemma listModify_getElem? (bs : List Book) (i : Nat) (f : Book → Book)
    (j : Nat) :
    (listModify bs i f)[j]? = if j = i then (bs[j]?).map f else bs[j]? := by
  induction bs generalizing i j with
  | nil => simp [listModify]
  | cons b rest ih =>
      cases i with
      | zero =>
          cases j with
          | zero => simp [listModify]
          | succ j => simp [listModify]
      | succ i =>
          cases j with
          | zero => simp [listModify]
          | succ j => simpa [listModify] using ih i j

lemma lookupIdx_eq_none (bs : List Book) (bid : String)
    (h : bid ∉ bs.map Book.id) : lookupIdx bs bid = none := by
  induction bs with
  | nil => rfl
  | cons b rest ih =>
      rw [List.map_cons, List.mem_cons] at h
      push_neg at h
      rw [lookupIdx, ih h.2]
      simp [Ne.symm h.1]

lemma lookupIdx_self (bs : List Book) (hids : (bs.map Book.id).Nodup)
    (i : Nat) (hi : i < bs.length) :
    lookupIdx bs (bs.getD i default).id = some i := by
  induction bs generalizing i with
  | nil => simp at hi
  | cons b rest ih =>
      rw [List.map_cons, List.nodup_cons] at hids
      cases i with
      | zero =>
          rw [List.getD_cons_zero, lookupIdx, lookupIdx_eq_none rest b.id hids.1]
          simp
      | succ i =>
          have hi' : i < rest.length := by simpa using hi
          rw [List.getD_cons_succ, lookupIdx, ih hids.2 i hi']

lemma enrichStep_eq_listModify (books0 : List Book)
    (hs : String → Nat → HeadResponse) (ss : String → Nat → SearchResponse)
    (hj sj : Nat → ℚ) (bs : List Book) (i : Nat)
    (hids : (books0.map Book.id).Nodup) (hi : i < books0.length) :
    enrichStep books0 hs ss hj sj bs i =
      listModify bs i (fun b =>
        { b with cover_url :=
            (fetch_cover_for_book (books0.getD i default) hs ss hj sj).2 }) := by
  dsimp only [enrichStep]
  rw [fetch_cover_for_book_fst, lookupIdx_self books0 hids i hi]

lemma enrichStep_length (books0 : List Book)
    (hs : String → Nat → HeadResponse) (ss : String → Nat → SearchResponse)
    (hj sj : Nat → ℚ) (bs : List Book) (i : Nat) :
    (enrichStep books0 hs ss hj sj bs i).length = bs.length := by
  dsimp only [enrichStep]
  split
  · rw [listModify_length]
  · rfl

lemma enrich_foldl_length (books0 : List Book)
    (hs : String → Nat → HeadResponse) (ss : String → Nat → SearchResponse)
    (hj sj : Nat → ℚ) (ord : List Nat) (bs : List Book) :
    (ord.foldl (enrichStep books0 hs ss hj sj) bs).length = bs.length := by
  induction ord generalizing bs with
  | nil => rfl
  | cons i rest ih =>
      rw [List.foldl_cons, ih, enrichStep_length]

lemma enrich_foldl_getElem? (books0 : List Book)
    (hs : String → Nat → HeadResponse) (ss : String → Nat → SearchResponse)
    (hj sj : Nat → ℚ)
    (hids : (books0.map Book.id).Nodup) :
    ∀ (ord : List Nat) (bs : List Book), ord.Nodup →
      (∀ k ∈ ord, k < books0.length) → ∀ j,
      (ord.foldl (enrichStep books0 hs ss hj sj) bs)[j]? =
        if j ∈ ord then
          (bs[j]?).map (fun b =>
            { b with cover_url :=
                (fetch_cover_for_book (books0.getD j default) hs ss hj sj).2 })
        else bs[j]? := by
  intro ord
  induction ord with
  | nil => intro bs _ _ j; simp
  | cons i rest ih =>
      intro bs hnd hmem j
      rw [List.foldl_cons,
        enrichStep_eq_listModify books0 hs ss hj sj bs i hids
          (hmem i (List.mem_cons_self i rest)),
        ih _ (List.Nodup.of_cons hnd)
          (fun k hk => hmem k (List.mem_cons_of_mem i hk)) j]
      rw [List.nodup_cons] at hnd
      by_cases hji : j = i
      · subst hji
        simp [hnd.1, listModify_getElem?]
      · simp [listModify_getElem?, hji, List.mem_cons]

/-- C3: with pairwise-distinct record identifiers, enrichment over any
completion order (any permutation of the submission indices) returns a
collection of exactly the input length in which the record at each position
is the corresponding input record with its cover field assigned exactly the
single resolution outcome computed for it — regardless of how many
resolutions ended in absence. -/
theorem enrich_one_outcome_per_record (books : List Book)
    (hs : String → Nat → HeadResponse) (ss : String → Nat → SearchResponse)
    (hj sj : Nat → ℚ) (order : List Nat) (i : Nat)
    (hids : (books.map Book.id).Nodup)
    (horder : order.Perm (List.range books.length))
    (hi : i < books.length) :
    (enrich_with_covers books hs ss hj sj order).length = books.length ∧
    (enrich_with_covers books hs ss hj sj order)[i]? =
      some { books.getD i default with
             cover_url :=
               (fetch_cover_for_book (books.getD i default) hs ss hj sj).2 } := by
  have hnd : order.Nodup := horder.nodup_iff.mpr (List.nodup_range _)
  have hmem : ∀ k ∈ order, k < books.length :=
    fun k hk => List.mem_range.mp (horder.mem_iff.mp hk)
  have hiord : i ∈ order := horder.mem_iff.mpr (List.mem_range.mpr hi)
  constructor
  · rw [enrich_with_covers, enrich_foldl_length]
  · rw [enrich_with_covers,
      enrich_foldl_getElem? books hs ss hj sj hids order books hnd hmem i]
    rw [if_pos hiord, List.getElem?_eq_getElem hi,
      List.getD_eq_getElem books default hi]
    rfl

theorem enrich_one_outcome_per_record_witness :
    (([wBook].map Book.id).Nodup) ∧ ([0] : List Nat).Perm (List.range [wBook].length) ∧
    (0 : Nat) < [wBook].length ∧
    ((enrich_with_covers [wBook] wHeadBig wSearchHit wJit wJit [0]).length =
        [wBook].length ∧
      (enrich_with_covers [wBook] wHeadBig wSearchHit wJit wJit [0])[0]? =
        some { [wBook].getD 0 default with
               cover_url :=
                 (fetch_cover_for_book ([wBook].getD 0 default) wHeadBig
                   wSearchHit wJit wJit).2 }) :=
  ⟨by decide, by decide, by decide,
    enrich_one_outcome_per_record [wBook] wHeadBig wSearchHit wJit wJit [0] 0
      (by decide) (by decide) (by decide)⟩

/-- A record with its cover field blanked; two records agree on every field
other than the cover URL iff their images under this map are equal. -/
def coverErased (b : Book) : Book := { b with cover_url := none }

lemma listModify_cover_frame (bs : List Book) (i : Nat) (c : Option String)
    (j : Nat) :
    ((listModify bs i (fun b => { b with cover_url := c }))[j]?).map coverErased
      = (bs[j]?).map coverErased := by
  rw [listModify_getElem?]
  by_cases h : j = i
  · rw [if_pos h]
    cases bs[j]? with
    | none => rfl
    | some b => rfl
  · rw [if_neg h]

lemma enrichStep_cover_frame (books0 : List Book)
    (hs : String → Nat → HeadResponse) (ss : String → Nat → SearchResponse)
    (hj sj : Nat → ℚ) (bs : List Book) (i j : Nat) :
    ((enrichStep books0 hs ss hj sj bs i)[j]?).map coverErased =
      (bs[j]?).map coverErased := by
  dsimp only [enrichStep]
  split
  · rw [listModify_cover_frame]
  · rfl

lemma enrich_foldl_cover_frame (books0 : List Book)
    (hs : String → Nat → HeadResponse) (ss : String → Nat → SearchResponse)
    (hj sj : Nat → ℚ) (ord : List Nat) (bs : List Book) (j : Nat) :
    ((ord.foldl (enrichStep books0 hs ss hj sj) bs)[j]?).map coverErased =
      (bs[j]?).map coverErased := by
  induction ord generalizing bs with
  | nil => rfl
  | cons i rest ih =>
      rw [List.foldl_cons, ih, enrichStep_cover_frame]

/-- C9: enrichment mutates only the cover-URL field.  The resolver depends
only on the identifier, title, authors and identifier-code of its record
(replacing every other field changes nothing), and for every record set,
service behaviour and completion order, `enrich_with_covers` returns a list
of the same length whose entry at every position agrees with the input
record there on every field except `cover_url`. -/
theorem enrichment_mutates_only_cover (book : Book) (books : List Book)
    (hs : String → Nat → HeadResponse) (ss : String → Nat → SearchResponse)
    (hj sj : Nat → ℚ) (order : List Nat) (i : Nat) :
    fetch_cover_for_book book hs ss hj sj =
      fetch_cover_for_book
        { id := book.id, title := book.title, authors := book.authors,
          year_read := 0, date_read := none, isbn := book.isbn,
          cover_url := none, format := none } hs ss hj sj ∧
    (enrich_with_covers books hs ss hj sj order).length = books.length ∧
    ((enrich_with_covers books hs ss hj sj order)[i]?).map coverErased =
      (books[i]?).map coverErased := by
  refine ⟨rfl, ?_, ?_⟩
  · rw [enrich_with_covers, enrich_foldl_length]
  · rw [enrich_with_covers, enrich_foldl_cover_frame]
